import Mathlib

/-!
# Verification of the newsum Streamlit application (`main.py`)

A shallow embedding of `main.py` of the `newsum` repository: the page-level
control flow (channel guard, provider configuration, inventory loading,
result-cache lookup and write), the summary fan-out `gather_summaries`, the
rendering loop `draw_summaries`, and the id-to-timestamp helper `id_to_time`.

The collaborators imported from `functions` (`load_inventory`, `select_docs`,
`get_summary`) are not part of the embedded source file; they are taken as
abstract capabilities, and where their behaviour matters it is modelled from
the specification (marked as such on the definition).
-/

namespace Newsum

/-- Model choice offered by the `LLM` radio button: `["OpenAI", "Vicuna"]`. -/
inductive Model where
  | openai
  | vicuna
deriving DecidableEq, Repr

/-- The string shown for each model choice, as in the radio options list. -/
def Model.name : Model → String
  | .openai => "OpenAI"
  | .vicuna => "Vicuna"

/-- `VICUNA = "http://fc6000.sf.archive.org:8000/v1"` from `main.py`. -/
def VICUNA : String := "http://fc6000.sf.archive.org:8000/v1"

/-- Modelled from the spec: the default endpoint of the `openai` module before
any mutation; `main.py` never sets it on the OpenAI branch, so a fresh process
points at the OpenAI backend. -/
def OPENAI_DEFAULT_BASE : String := "https://api.openai.com/v1"

/-- The process-global state of the `openai` module that `main.py` mutates:
`openai.api_key` and `openai.api_base`. -/
structure OpenAIGlobals where
  api_key : String
  api_base : String
deriving DecidableEq, Repr

/-- Modelled from the spec: a fresh process starts with the OpenAI defaults. -/
def initGlobals : OpenAIGlobals :=
  { api_key := "sk-default", api_base := OPENAI_DEFAULT_BASE }

/-- Lines 124–126 of `main.py`:
`if lm == "Vicuna": openai.api_key = "EMPTY"; openai.api_base = VICUNA`.
The OpenAI branch leaves the globals untouched. -/
def configureProvider (lm : Model) (g : OpenAIGlobals) : OpenAIGlobals :=
  if lm = Model.vicuna then { api_key := "EMPTY", api_base := VICUNA } else g

/-- A summary record as produced by the oracle and persisted to disk.  The
JSON fields are all optional for the renderer, so each is an `Option`;
`start`/`end` are numbers, the rest strings (`end` is a Lean keyword, hence
`end_`). -/
structure SummaryRecord where
  id : Option String
  start : Option Int
  end_ : Option Int
  title : Option String
  description : Option String
  category : Option String
  transcript : Option String
deriving DecidableEq, Repr

/-- The on-disk result-cache file name from lines 137/139/145 of `main.py`:
`f"{dt}-{ch}-{lm}-{lg}.json"`.  Note that the chunk size `ck` and cluster
count `ct` do not occur in it. -/
def cacheFileName (dt ch : String) (lm : Model) (lg : String) : String :=
  dt ++ "-" ++ ch ++ "-" ++ lm.name ++ "-" ++ lg ++ ".json"

/-- The output folder contents: a finite map from file name to the list of
summary records stored in that JSON file. -/
def Cache := List (String × List SummaryRecord)

/-- File lookup: `fname in os.listdir(...)` followed by reading the file. -/
def Cache.lookup (c : Cache) (fname : String) : Option (List SummaryRecord) :=
  match List.find? (fun p => p.1 = fname) c with
  | some p => some p.2
  | none => none

/-- Writing the file (`open(..., 'w+')` truncates, so an existing entry is
replaced). -/
def Cache.write (c : Cache) (fname : String) (v : List SummaryRecord) : Cache :=
  (fname, v) :: List.filter (fun p => ¬ (p.1 = fname)) c

/-! ## The thread-pool fan-out (`gather_summaries`)

`gather_summaries` builds `summary_args = [(d, lm) for d in _seldocs]` and runs
`pool.starmap(get_summary, summary_args)` on a `ThreadPool`.  `starmap` places
each task's result at the slot of its origin index however the worker threads
interleave; we model the interleaving as an explicit completion schedule: a
list of indices in the order the tasks finish, with each finishing task
writing the (deterministic) value of `get_summary` on its own argument into
its own slot. -/

/-- One completed task writes its result into its slot: the slot table is a
function from index to the optional finished result. -/
def slotWrite {α : Type} (f : Nat → Option α) (tbl : Nat → Option α)
    (i : Nat) : Nat → Option α :=
  fun j => if j = i then f i else tbl j

/-- Run the completion schedule over the slot table. -/
def runSchedule {α : Type} (f : Nat → Option α) :
    List Nat → (Nat → Option α) → (Nat → Option α)
  | [], tbl => tbl
  | i :: rest, tbl => runSchedule f rest (slotWrite f tbl i)

/-- `ThreadPool.starmap get_summary args` under completion schedule `sched`:
run all tasks, then read the slots out in input order. -/
def poolStarmap {α β : Type} (g : α → β) (args : List α)
    (sched : List Nat) : List β :=
  let f : Nat → Option β := fun i => (args.get? i).map g
  let tbl := runSchedule f sched (fun _ => none)
  ((List.range args.length).map tbl).reduceOption

/-- Lines 87–92 of `main.py` (body of the cached function):
`summary_args = [(d, lm) for d in _seldocs]` and
`summaries = pool.starmap(get_summary, summary_args)`.
`get_summary` is the abstract oracle `gs`; `sched` is the completion order of
the pool's worker threads. -/
def gather_summaries {Doc : Type} (gs : Doc → Model → SummaryRecord)
    (lm : Model) (seldocs : List Doc) (sched : List Nat) : List SummaryRecord :=
  let summary_args := seldocs.map (fun d => (d, lm))
  poolStarmap (fun p : Doc × Model => gs p.1 p.2) summary_args sched

/-! ## The page run (`main.py` top-level flow) -/

/-- The abstract collaborators imported from `functions`: the inventory
service (which fails with an `HTTPError` when the day is not yet published),
the selection pipeline and the summarization oracle.  `Inv` is the opaque
inventory payload, `Doc` the candidate-document type. -/
structure Collab (Inv Doc : Type) where
  load_inventory : String → String → String → Except Unit Inv
  select_docs : String → String → String → Model → Int → Int → Inv → List Doc
  get_summary : Doc → Model → SummaryRecord

/-- How a page run ends. -/
inductive Outcome where
  | stoppedNoChannel (info : String)
  | stoppedUnavailable (warning : String)
  | rendered (summaries : List SummaryRecord)
deriving DecidableEq, Repr

/-- The `CHANNELS` mapping of `main.py` (code → display name). -/
def channelName : String → Option String
  | "" => some "-- Select --"
  | "ESPRESO" => some "Espreso TV"
  | "RUSSIA1" => some "Russia-1"
  | "RUSSIA24" => some "Russia-24"
  | "1TV" => some "Channel One Russia"
  | "NTV" => some "NTV"
  | "BELARUSTV" => some "Belarus TV"
  | "IRINN" => some "Islamic Republic of Iran News Network"
  | _ => none

/-- The warning of line 131: `CHANNELS.get(ch, 'selected')` and the date
sliced `dt[:4]-dt[4:6]-dt[6:8]`. -/
def unavailableWarning (dt ch : String) : String :=
  "Inventory for `" ++ ((channelName ch).getD "selected") ++
    "` channel is not available for `" ++
    (String.mk (dt.data.take 4)) ++ "-" ++
    (String.mk ((dt.data.drop 4).take 2)) ++ "-" ++
    (String.mk ((dt.data.drop 6).take 2)) ++
    "` yet, try selecting another date!"

/-- Everything observable about one page run: the outcome, whether the
selection pipeline (`select_docs`) and the oracle fan-out
(`gather_summaries`) ran, how often the inventory collaborator was called,
the cache directory afterwards and the `openai` globals afterwards. -/
structure RunResult where
  outcome : Outcome
  pipelineInvoked : Bool
  oracleInvoked : Bool
  loadInventoryCalls : Nat
  cacheAfter : Cache
  globalsAfter : OpenAIGlobals
  oracleEndpoint : Option String

/-- The top-level flow of `main.py` from the channel guard (line 118) to the
final `draw_summaries` (line 147), for the selected date `dt`, channel `ch`,
language `lg`, model `lm`, chunk size `ck` and cluster count `ct`:

* `if not ch: st.info(...); st.stop()` — no channel selected;
* lines 124–126 — Vicuna provider configuration of the `openai` globals;
* lines 128–132 — `load_inventory` guarded by `except HTTPError`, which warns
  and stops (the call is made exactly once, never retried);
* lines 137–141 — if `f"{dt}-{ch}-{lm}-{lg}.json"` is in the output folder,
  its contents are rendered and nothing else runs;
* lines 142–147 — otherwise `select_docs` and `gather_summaries` run, the
  result is written to that file and rendered.

`env` supplies the collaborators, `cache` the output folder, `g` the `openai`
globals at entry and `sched` the pool's completion schedule.  The endpoint
oracle calls are directed at is the `api_base` in effect during the run
(modelled from the spec: `get_summary` talks to the `openai` module, whose
global base URL `main.py` just configured). -/
def mainRun {Inv Doc : Type} (env : Collab Inv Doc) (cache : Cache)
    (g : OpenAIGlobals) (dt ch lg : String) (lm : Model) (ck ct : Int)
    (sched : List Nat) : RunResult :=
  if ch = "" then
    { outcome := .stoppedNoChannel "Select a channel to summarize for the selected day."
      pipelineInvoked := false, oracleInvoked := false, loadInventoryCalls := 0
      cacheAfter := cache, globalsAfter := g, oracleEndpoint := none }
  else
    let g1 := configureProvider lm g
    match env.load_inventory ch dt lg with
    | .error _ =>
      { outcome := .stoppedUnavailable (unavailableWarning dt ch)
        pipelineInvoked := false, oracleInvoked := false, loadInventoryCalls := 1
        cacheAfter := cache, globalsAfter := g1, oracleEndpoint := none }
    | .ok inventory =>
      let fname := cacheFileName dt ch lm lg
      match cache.lookup fname with
      | some stored =>
        { outcome := .rendered stored
          pipelineInvoked := false, oracleInvoked := false, loadInventoryCalls := 1
          cacheAfter := cache, globalsAfter := g1, oracleEndpoint := none }
      | none =>
        let seldocs := env.select_docs dt ch lg lm ck ct inventory
        let summaries := gather_summaries env.get_summary lm seldocs sched
        { outcome := .rendered summaries
          pipelineInvoked := true, oracleInvoked := true, loadInventoryCalls := 1
          cacheAfter := cache.write fname summaries, globalsAfter := g1
          oracleEndpoint := some g1.api_base }

/-! ## `id_to_time` and the id regex `IDDTRE`

Line 42: `IDDTRE = re.compile(r"^.+_(\d{8}_\d{6})")`.
Lines 67–69:
`def id_to_time(id, start=0): dt = IDDTRE.match(id).groups()[0];`
`return datetime.strptime(dt, "%Y%m%d_%H%M%S") + timedelta(seconds=start)`.

The regex is embedded over character lists: a match position `i` is the index
of an underscore with at least one character before it, followed by eight
digits, an underscore and six digits; the greedy `.+` makes Python pick the
largest such `i`, and the capture group is the fifteen characters after that
underscore. -/

/-- The shape of the captured group: `\d{8}_\d{6}` — eight digits, an
underscore, six digits, fifteen characters in all. -/
def capShape (l : List Char) : Bool :=
  l.length = 15 && (l.take 8).all Char.isDigit && l.get? 8 = some '_' &&
    ((l.drop 9).take 6).all Char.isDigit

/-- The capture group when the `_` of the pattern sits at index `i`. -/
def capAt (cs : List Char) (i : Nat) : List Char :=
  (cs.drop (i + 1)).take 15

/-- `IDDTRE` can place the `_` preceding the capture at index `i`: at least
one character before it (from `.+`), then the captured shape. -/
def matchesAt (cs : List Char) (i : Nat) : Bool :=
  decide (1 ≤ i) && cs.get? i = some '_' && capShape (capAt cs i)

/-- The capture group of `IDDTRE.match`: the greedy `.+` backtracks from the
right, so the match uses the largest feasible underscore index. -/
def iddtreCaptureL (cs : List Char) : Option (List Char) :=
  match (List.filter (fun i => matchesAt cs i) (List.range cs.length)).getLast? with
  | some i => some (capAt cs i)
  | none => none

/-- `IDDTRE.match(id).groups()[0]`, as `none` when the match fails. -/
def iddtreCapture (s : String) : Option String :=
  (iddtreCaptureL s.data).map String.mk

/-- A Python exception that can escape the embedded fragments. -/
inductive PyError where
  | keyError (key : String)
  | attributeError
  | valueError
  | jsonDecodeError
deriving DecidableEq, Repr

/-- `y % 4 == 0 and (y % 100 != 0 or y % 400 == 0)`. -/
def isLeap (y : Nat) : Bool :=
  y % 4 = 0 && (y % 100 ≠ 0 || y % 400 = 0)

/-- Length of month `m` of year `y` (Gregorian, as Python's `datetime`). -/
def daysInMonth (y m : Nat) : Nat :=
  if m = 2 then (if isLeap y then 29 else 28)
  else if m = 4 ∨ m = 6 ∨ m = 9 ∨ m = 11 then 30
  else 31

/-- Days in all full years before year `y` (year 1 is the first year), as in
the proleptic Gregorian ordinal of `datetime.toordinal`. -/
def daysBeforeYear (y : Nat) : Nat :=
  (y - 1) * 365 + (y - 1) / 4 - (y - 1) / 100 + (y - 1) / 400

/-- Days in the months of year `y` strictly before month `m`. -/
def daysBeforeMonth (y m : Nat) : Nat :=
  ((List.range m).filter (fun k => 1 ≤ k)).foldl (fun a k => a + daysInMonth y k) 0

/-- `datetime(y, m, d, h, mi, s)` as a second count from the epoch
`0001-01-01 00:00:00` (the proleptic Gregorian ordinal, zero-based, times
86400, plus the time of day). -/
def civilSeconds (y m d h mi s : Nat) : Nat :=
  (daysBeforeYear y + daysBeforeMonth y m + (d - 1)) * 86400 +
    h * 3600 + mi * 60 + s

/-- The numeric value of a digit string. -/
def digitsToNat (l : List Char) : Nat :=
  l.foldl (fun a c => a * 10 + (c.toNat - 48)) 0

/-- `datetime.strptime(s, "%Y%m%d_%H%M%S")`, as the second count of the
parsed datetime, or `none` for a `ValueError`.  On an eight-digit date the
format's field widths force the split 4+2+2, and `_strptime`'s field patterns
plus the `datetime` constructor admit exactly: year ≥ 1, month 1–12, day
1–`daysInMonth`, hour ≤ 23, minute ≤ 59, second ≤ 59. -/
def strptimeYmdHMS (s : String) : Option Nat :=
  let l := s.data
  if capShape l then
    let y := digitsToNat (l.take 4)
    let mo := digitsToNat ((l.drop 4).take 2)
    let d := digitsToNat ((l.drop 6).take 2)
    let h := digitsToNat ((l.drop 9).take 2)
    let mi := digitsToNat ((l.drop 11).take 2)
    let sec := digitsToNat ((l.drop 13).take 2)
    if 1 ≤ y ∧ 1 ≤ mo ∧ mo ≤ 12 ∧ 1 ≤ d ∧ d ≤ daysInMonth y mo ∧
        h ≤ 23 ∧ mi ≤ 59 ∧ sec ≤ 59 then
      some (civilSeconds y mo d h mi sec)
    else none
  else none

/-- Lines 67–69 of `main.py`.  `IDDTRE.match(id)` returning `None` makes
`.groups()` raise `AttributeError`; an unparsable capture makes `strptime`
raise `ValueError`; otherwise the parsed datetime plus `timedelta(seconds=
start)`, with datetimes carried as second counts so the addition is exact. -/
def id_to_time (id : String) (start : Int) : Except PyError Int :=
  match iddtreCapture id with
  | none => .error .attributeError
  | some dt =>
    match strptimeYmdHMS dt with
    | none => .error .valueError
    | some secs => .ok ((secs : Int) + start)

/-! ## `draw_summaries` (lines 72–84)

Per record the loop emits a subheader, an embedded player iframe, a
description, an expander labelled with the capture time and category, and the
transcript caption.  `smr.get(k, "[EMPTY]")` tolerates a missing `title`,
`description` or `category`; `smr["id"]`, `smr["start"]`, `smr["end"]` and
`smr["transcript"]` raise `KeyError` when absent.  The `try` around the body
catches only `json.JSONDecodeError`. -/

/-- Python `str.upper()` applied character-wise (`Char.toUpper` uppercases
the ASCII range, which covers the category labels rendered here). -/
def pyUpper (s : String) : String :=
  String.mk (s.data.map Char.toUpper)

/-- What rendering one record puts on the page. -/
structure RenderedItem where
  subheader : String
  iframeId : String
  iframeStart : Int
  iframeEnd : Int
  description : String
  expanderTime : Int
  expanderCategory : String
  caption : String
deriving DecidableEq, Repr

/-- The body of the `for` loop of `draw_summaries` for one record, in source
evaluation order: `smr.get("title", "[EMPTY]")`, the iframe f-string reading
`smr["id"]`, `smr["start"]`, `smr["end"]` (each a `KeyError` when absent),
then `smr.get("description", "[EMPTY]")`, the expander label calling
`id_to_time(smr["id"], smr["start"])` and upper-casing
`smr.get("category", "[EMPTY]")`, and finally `smr["transcript"]`. -/
def drawOne (smr : SummaryRecord) : Except PyError RenderedItem :=
  match smr.id with
  | none => .error (.keyError "id")
  | some i =>
    match smr.start with
    | none => .error (.keyError "start")
    | some s =>
      match smr.end_ with
      | none => .error (.keyError "end")
      | some e =>
        match id_to_time i s with
        | .error err => .error err
        | .ok t =>
          match smr.transcript with
          | none => .error (.keyError "transcript")
          | some tr =>
            .ok { subheader := smr.title.getD "[EMPTY]"
                  iframeId := i, iframeStart := s, iframeEnd := e
                  description := smr.description.getD "[EMPTY]"
                  expanderTime := t
                  expanderCategory := pyUpper (smr.category.getD "[EMPTY]")
                  caption := tr }

/-- Lines 72–84: iterate the records; `except json.JSONDecodeError: pass`
swallows only that exception and every other error escapes the function.
Each swallowed record contributes `none` to the rendered sequence. -/
def draw_summaries (json_output : List SummaryRecord) :
    Except PyError (List (Option RenderedItem)) :=
  match json_output with
  | [] => .ok []
  | smr :: rest =>
    match drawOne smr with
    | .ok item => (draw_summaries rest).map (fun l => some item :: l)
    | .error .jsonDecodeError => (draw_summaries rest).map (fun l => none :: l)
    | .error e => .error e

/-! ## The configuration sliders (lines 103–111)

`st.session_state["chunk"]` / `["count"]` may be seeded from the URL query
parameters (lines 103–106: `int(qp.get("chunk")[0])`, with no range check);
the keyed slider widget then returns the session value when one is present
and its `value=` default otherwise.  The slider's `min_value`/`max_value`
are validated against the `value=` default and drive the browser widget, but
a session-state value injected before the run is handed back to the script
as-is — clamping happens only in the frontend, after the run has already
used the raw value — so an out-of-range query parameter flows through to the
core. -/

/-- A keyed slider's Python-side value: the session value when present,
otherwise the `value=` default `dflt`. -/
def sliderValue (dflt : Int) (sess : Option Int) : Int :=
  match sess with
  | none => dflt
  | some v => v

/-- Line 110: `st.slider("Chunk size (sec)", value=30, min_value=3,
max_value=120, step=3, key="chunk")`. -/
def chunkSlider (sess : Option Int) : Int :=
  sliderValue 30 sess

/-- Line 111: `st.slider("Cluster count", value=20, min_value=1,
max_value=50, key="count")`. -/
def countSlider (sess : Option Int) : Int :=
  sliderValue 20 sess

/-! ## Concrete collaborator assemblies used to exercise the page flow -/

/-- A probe assembly: the inventory always loads, the selection pipeline
returns a single document equal to the chunk size it was invoked with, and
the oracle copies the document into the record's `start` field.  It makes a
run's configuration visible in its rendered output. -/
def ckProbe : Collab Unit Int where
  load_inventory := fun _ _ _ => .ok ()
  select_docs := fun _ _ _ _ ck _ _ => [ck]
  get_summary := fun d _ =>
    { id := none, start := some d, end_ := none, title := none
      description := none, category := none, transcript := none }

/-- The record `ckProbe`'s oracle produces for document `d`. -/
def ckProbeRecord (d : Int) : SummaryRecord :=
  { id := none, start := some d, end_ := none, title := none
    description := none, category := none, transcript := none }

/-- A probe assembly whose inventory collaborator always fails with the
`HTTPError` of a not-yet-published day. -/
def unavailableProbe : Collab Unit Int where
  load_inventory := fun _ _ _ => .error ()
  select_docs := fun _ _ _ _ ck _ _ => [ck]
  get_summary := fun d _ => ckProbeRecord d

/-- A probe assembly for a day with no candidate documents: the selection
pipeline returns the empty sequence. -/
def emptyDayProbe : Collab Unit Int where
  load_inventory := fun _ _ _ => .ok ()
  select_docs := fun _ _ _ _ _ _ _ => []
  get_summary := fun d _ => ckProbeRecord d

/-- A first page run with chunk size 30 and cluster count 20 against an
empty output folder. -/
def chunk30Run : RunResult :=
  mainRun ckProbe [] initGlobals "20230101" "NTV" "English" Model.openai 30 20 [0]

/-- A second page run agreeing with `chunk30Run` on date, channel, model and
language but asking for chunk size 3 and cluster count 50, started on the
output folder `chunk30Run` left behind. -/
def chunk3Run : RunResult :=
  mainRun ckProbe chunk30Run.cacheAfter initGlobals "20230101" "NTV" "English"
    Model.openai 3 50 [0]

/-- A page run with the Vicuna model from a fresh process. -/
def vicunaRun : RunResult :=
  mainRun ckProbe [] initGlobals "20230101" "NTV" "English" Model.vicuna 30 20 [0]

/-- A later page run in the same process with the OpenAI model selected,
starting from the `openai` globals `vicunaRun` left behind (fresh output
folder and another date, so the oracle is actually consulted). -/
def openaiAfterVicunaRun : RunResult :=
  mainRun ckProbe [] vicunaRun.globalsAfter "20230102" "NTV" "English"
    Model.openai 30 20 [0]

/-- A record whose optional keys and `transcript` are absent and whose `id`
does not match `IDDTRE`. -/
def junkIdRecord : SummaryRecord :=
  { id := some "junk", start := some 0, end_ := some 0, title := none
    description := none, category := none, transcript := none }

/-! ## Helper lemmas -/

/-- After running a schedule, a slot holds its own task's value exactly when
the task completed; each slot is only ever written its own deterministic
value, so repeats and order do not matter. -/
theorem runSchedule_apply {α : Type} (f : Nat → Option α) (sched : List Nat)
    (tbl : Nat → Option α) (j : Nat) :
    runSchedule f sched tbl j = if j ∈ sched then f j else tbl j := by
  induction sched generalizing tbl with
  | nil => simp [runSchedule]
  | cons i rest ih =>
    simp only [runSchedule]
    rw [ih]
    by_cases hr : j ∈ rest
    · simp [hr]
    · by_cases hi : j = i
      · subst hi
        simp [slotWrite, hr]
      · simp [slotWrite, hr, hi]

/-- Reading a list out through `get?` over its index range. -/
theorem map_range_get {α β : Type} (l : List α) (g : α → β) :
    (List.range l.length).map (fun j => (l.get? j).map g) =
      l.map (fun a => some (g a)) := by
  induction l with
  | nil => simp
  | cons a t ih =>
    rw [List.length_cons, List.range_succ_eq_map, List.map_cons, List.map_map]
    refine congrArg₂ _ rfl ?_
    have hcomp : ((fun j => ((a :: t).get? j).map g) ∘ fun i => i + 1) =
        fun j => (t.get? j).map g := by
      funext j
      simp
    rw [hcomp, ih]

/-- `reduceOption` undoes a map through `some`. -/
theorem reduceOption_map_some {α β : Type} (l : List α) (g : α → β) :
    (l.map (fun a => some (g a))).reduceOption = l.map g := by
  induction l with
  | nil => rfl
  | cons a t ih => simp [List.reduceOption_cons_of_some, ih]

/-- A completed schedule (every index finished) makes the pool's `starmap`
agree with the sequential map, whatever the completion order was. -/
theorem poolStarmap_complete {α β : Type} (g : α → β) (args : List α)
    (sched : List Nat) (h : ∀ j, j < args.length → j ∈ sched) :
    poolStarmap g args sched = args.map g := by
  unfold poolStarmap
  have h1 : (List.range args.length).map
        (runSchedule (fun i => (args.get? i).map g) sched fun _ => none) =
      (List.range args.length).map (fun j => (args.get? j).map g) := by
    refine List.map_congr_left ?_
    intro j hj
    rw [runSchedule_apply]
    rw [List.mem_range] at hj
    simp [h j hj]
  simp only []
  rw [h1, map_range_get, reduceOption_map_some]

/-- The file just written is the one read back. -/
theorem Cache.lookup_write_self (c : Cache) (f : String)
    (v : List SummaryRecord) : (c.write f v).lookup f = some v := by
  simp [Cache.write, Cache.lookup, List.find?]

/-- Past the channel guard, the `openai` globals after the run are exactly
the provider configuration of lines 124–126 applied to the entry globals:
every later branch leaves them alone. -/
theorem mainRun_globalsAfter {Inv Doc : Type} (env : Collab Inv Doc)
    (cache : Cache) (g : OpenAIGlobals) (dt ch lg : String) (lm : Model)
    (ck ct : Int) (sched : List Nat) (hch : ch ≠ "") :
    (mainRun env cache g dt ch lg lm ck ct sched).globalsAfter =
      configureProvider lm g := by
  simp only [mainRun]
  rw [if_neg hch]
  cases env.load_inventory ch dt lg with
  | error e => simp
  | ok inv =>
    cases hl : Cache.lookup cache (cacheFileName dt ch lm lg) <;> simp [hl]

/-- The inventory-unavailable branch of `mainRun` (lines 128–132). -/
theorem mainRun_unavailable {Inv Doc : Type} (env : Collab Inv Doc)
    (cache : Cache) (g : OpenAIGlobals) (dt ch lg : String) (lm : Model)
    (ck ct : Int) (sched : List Nat) (hch : ch ≠ "")
    (herr : env.load_inventory ch dt lg = .error ()) :
    mainRun env cache g dt ch lg lm ck ct sched =
      { outcome := .stoppedUnavailable (unavailableWarning dt ch)
        pipelineInvoked := false, oracleInvoked := false
        loadInventoryCalls := 1, cacheAfter := cache
        globalsAfter := configureProvider lm g, oracleEndpoint := none } := by
  simp only [mainRun]
  rw [if_neg hch, herr]

/-- The cache-hit branch of `mainRun` (lines 137–141). -/
theorem mainRun_hit {Inv Doc : Type} (env : Collab Inv Doc) (cache : Cache)
    (g : OpenAIGlobals) (dt ch lg : String) (lm : Model) (ck ct : Int)
    (sched : List Nat) (inv : Inv) (stored : List SummaryRecord)
    (hch : ch ≠ "") (hinv : env.load_inventory ch dt lg = .ok inv)
    (hhit : cache.lookup (cacheFileName dt ch lm lg) = some stored) :
    mainRun env cache g dt ch lg lm ck ct sched =
      { outcome := .rendered stored
        pipelineInvoked := false, oracleInvoked := false
        loadInventoryCalls := 1, cacheAfter := cache
        globalsAfter := configureProvider lm g, oracleEndpoint := none } := by
  simp only [mainRun]
  rw [if_neg hch, hinv, hhit]

/-- The cache-miss branch of `mainRun` (lines 142–147). -/
theorem mainRun_miss {Inv Doc : Type} (env : Collab Inv Doc) (cache : Cache)
    (g : OpenAIGlobals) (dt ch lg : String) (lm : Model) (ck ct : Int)
    (sched : List Nat) (inv : Inv)
    (hch : ch ≠ "") (hinv : env.load_inventory ch dt lg = .ok inv)
    (hmiss : cache.lookup (cacheFileName dt ch lm lg) = none) :
    mainRun env cache g dt ch lg lm ck ct sched =
      { outcome := .rendered (gather_summaries env.get_summary lm
          (env.select_docs dt ch lg lm ck ct inv) sched)
        pipelineInvoked := true, oracleInvoked := true
        loadInventoryCalls := 1
        cacheAfter := cache.write (cacheFileName dt ch lm lg)
          (gather_summaries env.get_summary lm
            (env.select_docs dt ch lg lm ck ct inv) sched)
        globalsAfter := configureProvider lm g
        oracleEndpoint := some (configureProvider lm g).api_base } := by
  simp only [mainRun]
  rw [if_neg hch, hinv, hmiss]

/-! ## Claims -/

/-- **C2.** When the inventory collaborator fails because the day's data is
not yet published (`load_inventory` raising `HTTPError`), the run surfaces
this as a distinct not-available outcome carrying the warning that suggests
another date, stops without invoking the selection pipeline or the oracle,
leaves the result cache untouched, and calls the collaborator exactly once —
the failure is never retried automatically. -/
theorem claim2_inventory_unavailable {Inv Doc : Type} (env : Collab Inv Doc)
    (cache : Cache) (g : OpenAIGlobals) (dt ch lg : String) (lm : Model)
    (ck ct : Int) (sched : List Nat) (hch : ch ≠ "")
    (herr : env.load_inventory ch dt lg = .error ()) :
    (mainRun env cache g dt ch lg lm ck ct sched).outcome =
      .stoppedUnavailable (unavailableWarning dt ch) ∧
    (mainRun env cache g dt ch lg lm ck ct sched).pipelineInvoked = false ∧
    (mainRun env cache g dt ch lg lm ck ct sched).oracleInvoked = false ∧
    (mainRun env cache g dt ch lg lm ck ct sched).loadInventoryCalls = 1 ∧
    (mainRun env cache g dt ch lg lm ck ct sched).cacheAfter = cache := by
  rw [mainRun_unavailable env cache g dt ch lg lm ck ct sched hch herr]
  exact ⟨rfl, rfl, rfl, rfl, rfl⟩

/-- Witness for C2 at a concrete run: channel `NTV`, an inventory
collaborator whose day is not yet published. -/
theorem claim2_witness :
    (mainRun unavailableProbe [] initGlobals "20230101" "NTV" "English"
        Model.openai 30 20 []).outcome =
      .stoppedUnavailable (unavailableWarning "20230101" "NTV") ∧
    (mainRun unavailableProbe [] initGlobals "20230101" "NTV" "English"
        Model.openai 30 20 []).pipelineInvoked = false ∧
    (mainRun unavailableProbe [] initGlobals "20230101" "NTV" "English"
        Model.openai 30 20 []).oracleInvoked = false ∧
    (mainRun unavailableProbe [] initGlobals "20230101" "NTV" "English"
        Model.openai 30 20 []).loadInventoryCalls = 1 ∧
    (mainRun unavailableProbe [] initGlobals "20230101" "NTV" "English"
        Model.openai 30 20 []).cacheAfter = [] :=
  claim2_inventory_unavailable unavailableProbe [] initGlobals "20230101"
    "NTV" "English" Model.openai 30 20 [] (by decide) rfl

/-- **C3.** `gather_summaries` returns the summaries in the order of the
input documents for every completion schedule that finishes all tasks (any
permutation of the indices), so two runs over identical inputs with an
identical oracle produce identically ordered output whatever the completion
orders were. -/
theorem claim3_gather_order_deterministic {Doc : Type}
    (gs : Doc → Model → SummaryRecord) (lm : Model) (seldocs : List Doc)
    (sched sched' : List Nat)
    (h : sched.Perm (List.range seldocs.length))
    (h' : sched'.Perm (List.range seldocs.length)) :
    gather_summaries gs lm seldocs sched = seldocs.map (fun d => gs d lm) ∧
    gather_summaries gs lm seldocs sched' =
      gather_summaries gs lm seldocs sched := by
  have key : ∀ s : List Nat, s.Perm (List.range seldocs.length) →
      gather_summaries gs lm seldocs s = seldocs.map (fun d => gs d lm) := by
    intro s hs
    simp only [gather_summaries]
    rw [poolStarmap_complete]
    · simp
    · intro j hj
      rw [List.length_map] at hj
      exact hs.mem_iff.2 (List.mem_range.2 hj)
  exact ⟨key sched h, (key sched' h').trans (key sched h).symm⟩

/-- Witness for C3: two documents, completion orders `[1, 0]` and `[0, 1]`,
identical ordered output. -/
theorem claim3_witness :
    gather_summaries (fun (d : Int) (_ : Model) => ckProbeRecord d)
        Model.openai [5, 7] [1, 0] = [ckProbeRecord 5, ckProbeRecord 7] ∧
    gather_summaries (fun (d : Int) (_ : Model) => ckProbeRecord d)
        Model.openai [5, 7] [0, 1] =
      gather_summaries (fun (d : Int) (_ : Model) => ckProbeRecord d)
        Model.openai [5, 7] [1, 0] := by
  have h := claim3_gather_order_deterministic
    (fun (d : Int) (_ : Model) => ckProbeRecord d) Model.openai [5, 7]
    [1, 0] [0, 1] (by decide) (by decide)
  exact ⟨h.1, h.2⟩

/-- **C4.** Past the channel and inventory guards: if the cached result file
for `(date, channel, model, language)` exists, its contents are rendered and
neither the selection pipeline nor the oracle runs and the cache is left as
it was; if it does not exist, the computed summaries are rendered, the
pipeline and oracle do run, and the same summaries are written to that
file. -/
theorem claim4_cache_hit_or_compute {Inv Doc : Type} (env : Collab Inv Doc)
    (cache : Cache) (g : OpenAIGlobals) (dt ch lg : String) (lm : Model)
    (ck ct : Int) (sched : List Nat) (inv : Inv)
    (hch : ch ≠ "") (hinv : env.load_inventory ch dt lg = .ok inv) :
    (∀ stored, cache.lookup (cacheFileName dt ch lm lg) = some stored →
      (mainRun env cache g dt ch lg lm ck ct sched).outcome = .rendered stored ∧
      (mainRun env cache g dt ch lg lm ck ct sched).pipelineInvoked = false ∧
      (mainRun env cache g dt ch lg lm ck ct sched).oracleInvoked = false ∧
      (mainRun env cache g dt ch lg lm ck ct sched).cacheAfter = cache) ∧
    (cache.lookup (cacheFileName dt ch lm lg) = none →
      (mainRun env cache g dt ch lg lm ck ct sched).outcome =
        .rendered (gather_summaries env.get_summary lm
          (env.select_docs dt ch lg lm ck ct inv) sched) ∧
      (mainRun env cache g dt ch lg lm ck ct sched).pipelineInvoked = true ∧
      (mainRun env cache g dt ch lg lm ck ct sched).oracleInvoked = true ∧
      (mainRun env cache g dt ch lg lm ck ct sched).cacheAfter.lookup
          (cacheFileName dt ch lm lg) =
        some (gather_summaries env.get_summary lm
          (env.select_docs dt ch lg lm ck ct inv) sched)) := by
  constructor
  · intro stored hhit
    rw [mainRun_hit env cache g dt ch lg lm ck ct sched inv stored hch hinv hhit]
    exact ⟨rfl, rfl, rfl, rfl⟩
  · intro hmiss
    rw [mainRun_miss env cache g dt ch lg lm ck ct sched inv hch hinv hmiss]
    exact ⟨rfl, rfl, rfl, Cache.lookup_write_self _ _ _⟩

/-- Witness for C4 on the cache-miss side at a concrete run: the summaries
are computed, rendered and written to the file. -/
theorem claim4_witness :
    (mainRun ckProbe [] initGlobals "20230101" "NTV" "English" Model.openai
        30 20 [0]).outcome = .rendered [ckProbeRecord 30] ∧
    (mainRun ckProbe [] initGlobals "20230101" "NTV" "English" Model.openai
        30 20 [0]).pipelineInvoked = true ∧
    (mainRun ckProbe [] initGlobals "20230101" "NTV" "English" Model.openai
        30 20 [0]).oracleInvoked = true ∧
    (mainRun ckProbe [] initGlobals "20230101" "NTV" "English" Model.openai
        30 20 [0]).cacheAfter.lookup
        (cacheFileName "20230101" "NTV" Model.openai "English") =
      some [ckProbeRecord 30] := by
  have h := (claim4_cache_hit_or_compute ckProbe [] initGlobals "20230101"
    "NTV" "English" Model.openai 30 20 [0] () (by decide) rfl).2 rfl
  exact ⟨h.1, h.2.1, h.2.2.1, h.2.2.2⟩

/-- **C5.** A day with no candidate documents yields an empty summary
sequence rather than an error: `gather_summaries` on the empty document
sequence returns `[]` under every completion schedule, and a run whose
selection pipeline returns no documents completes by rendering the empty
list. -/
theorem claim5_empty_day {Inv Doc : Type} (gs : Doc → Model → SummaryRecord)
    (lm : Model) (sched : List Nat) (env : Collab Inv Doc) (cache : Cache)
    (g : OpenAIGlobals) (dt ch lg : String) (ck ct : Int) (inv : Inv)
    (hch : ch ≠ "") (hinv : env.load_inventory ch dt lg = .ok inv)
    (hmiss : cache.lookup (cacheFileName dt ch lm lg) = none)
    (hempty : env.select_docs dt ch lg lm ck ct inv = []) :
    gather_summaries gs lm ([] : List Doc) sched = [] ∧
    (mainRun env cache g dt ch lg lm ck ct sched).outcome = .rendered [] := by
  constructor
  · simp [gather_summaries, poolStarmap]
  · rw [mainRun_miss env cache g dt ch lg lm ck ct sched inv hch hinv hmiss]
    simp only [hempty]
    have : gather_summaries env.get_summary lm ([] : List Doc) sched = [] := by
      simp [gather_summaries, poolStarmap]
    rw [this]

/-- Witness for C5 at a concrete empty day. -/
theorem claim5_witness :
    gather_summaries (fun (d : Int) (_ : Model) => ckProbeRecord d)
        Model.openai ([] : List Int) [] = [] ∧
    (mainRun emptyDayProbe [] initGlobals "20230101" "NTV" "English"
        Model.openai 30 20 []).outcome = .rendered [] :=
  claim5_empty_day (fun (d : Int) (_ : Model) => ckProbeRecord d)
    Model.openai [] emptyDayProbe [] initGlobals "20230101" "NTV" "English"
    30 20 () (by decide) rfl rfl rfl

/-- **C1 is false on the code.** Two runs agreeing on date/channel/model/
language but differing in chunk size (30 vs 3) and cluster count (20 vs 50)
use the same cache file: the second run reads the first run's entry (the
pipeline is not invoked) and renders the first run's SummaryRecord list
(computed with chunk size 30) although a fresh run with its own parameters
would render a different list. -/
theorem claim1_counterexample :
    chunk3Run.outcome = .rendered [ckProbeRecord 30] ∧
    chunk3Run.pipelineInvoked = false ∧
    chunk30Run.pipelineInvoked = true ∧
    (mainRun ckProbe [] initGlobals "20230101" "NTV" "English" Model.openai
        3 50 [0]).outcome = .rendered [ckProbeRecord 3] ∧
    ckProbeRecord 3 ≠ ckProbeRecord 30 :=
  ⟨rfl, rfl, rfl, rfl, by decide⟩

/-- **C1 (amended).** The persisted result cache is keyed by
`(date, channel, model, language)` only: a run that agrees with an earlier
run on those four values is served the earlier run's persisted SummaryRecord
list without invoking the pipeline, even when its chunk size and cluster
count differ. -/
theorem claim1_cache_key_shared {Inv Doc : Type} (env : Collab Inv Doc)
    (cache : Cache) (g g' : OpenAIGlobals) (dt ch lg : String) (lm : Model)
    (ck ct ck' ct' : Int) (sched sched' : List Nat) (inv : Inv)
    (hch : ch ≠ "") (hinv : env.load_inventory ch dt lg = .ok inv)
    (hmiss : cache.lookup (cacheFileName dt ch lm lg) = none) :
    (mainRun env (mainRun env cache g dt ch lg lm ck ct sched).cacheAfter g'
        dt ch lg lm ck' ct' sched').outcome =
      .rendered (gather_summaries env.get_summary lm
        (env.select_docs dt ch lg lm ck ct inv) sched) ∧
    (mainRun env (mainRun env cache g dt ch lg lm ck ct sched).cacheAfter g'
        dt ch lg lm ck' ct' sched').pipelineInvoked = false := by
  rw [mainRun_miss env cache g dt ch lg lm ck ct sched inv hch hinv hmiss]
  rw [mainRun_hit env _ g' dt ch lg lm ck' ct' sched' inv _ hch hinv
    (Cache.lookup_write_self _ _ _)]
  exact ⟨rfl, rfl⟩

/-- Witness for the amended C1 at the concrete pair of runs. -/
theorem claim1_witness :
    chunk3Run.outcome = .rendered [ckProbeRecord 30] ∧
    chunk3Run.pipelineInvoked = false := by
  have h := claim1_cache_key_shared ckProbe [] initGlobals initGlobals
    "20230101" "NTV" "English" Model.openai 30 20 3 50 [0] [0] ()
    (by decide) rfl rfl
  exact ⟨h.1, h.2⟩

/-- **C6 is false on the code.** After a Vicuna run mutated the `openai`
globals, a run in the same process with the OpenAI model selected directs
its oracle calls at the Vicuna endpoint, not the OpenAI backend. -/
theorem claim6_counterexample :
    openaiAfterVicunaRun.oracleEndpoint = some VICUNA ∧
    VICUNA ≠ OPENAI_DEFAULT_BASE :=
  ⟨rfl, by decide⟩

/-- **C6 (amended).** The model choice selects between the two backends as
follows: selecting Vicuna sets the `openai` globals to the Vicuna URL with
the placeholder key `"EMPTY"` and routes oracle calls there; selecting
OpenAI leaves the process-global provider configuration unchanged, so its
oracle calls go to whatever endpoint the global `api_base` already holds —
the OpenAI backend exactly when that global still has its default value. -/
theorem claim6_provider_branch {Inv Doc : Type} (env : Collab Inv Doc)
    (cache : Cache) (g : OpenAIGlobals) (dt ch lg : String) (ck ct : Int)
    (sched : List Nat) (inv : Inv) (hch : ch ≠ "")
    (hinv : env.load_inventory ch dt lg = .ok inv)
    (hmissV : cache.lookup (cacheFileName dt ch Model.vicuna lg) = none)
    (hmissO : cache.lookup (cacheFileName dt ch Model.openai lg) = none) :
    (mainRun env cache g dt ch lg Model.vicuna ck ct sched).globalsAfter =
      { api_key := "EMPTY", api_base := VICUNA } ∧
    (mainRun env cache g dt ch lg Model.vicuna ck ct sched).oracleEndpoint =
      some VICUNA ∧
    (mainRun env cache g dt ch lg Model.openai ck ct sched).globalsAfter = g ∧
    (mainRun env cache g dt ch lg Model.openai ck ct sched).oracleEndpoint =
      some g.api_base ∧
    (g.api_base = OPENAI_DEFAULT_BASE →
      (mainRun env cache g dt ch lg Model.openai ck ct sched).oracleEndpoint =
        some OPENAI_DEFAULT_BASE) := by
  rw [mainRun_miss env cache g dt ch lg Model.vicuna ck ct sched inv hch hinv
      hmissV,
    mainRun_miss env cache g dt ch lg Model.openai ck ct sched inv hch hinv
      hmissO]
  exact ⟨rfl, rfl, rfl, rfl, fun hd => by
    simp only [configureProvider, if_neg (by simp : ¬ Model.openai = Model.vicuna), hd]⟩

/-- Witness for the amended C6 at a concrete run from a fresh process. -/
theorem claim6_witness :
    (mainRun ckProbe [] initGlobals "20230101" "NTV" "English" Model.vicuna
        30 20 [0]).globalsAfter = { api_key := "EMPTY", api_base := VICUNA } ∧
    (mainRun ckProbe [] initGlobals "20230101" "NTV" "English" Model.vicuna
        30 20 [0]).oracleEndpoint = some VICUNA ∧
    (mainRun ckProbe [] initGlobals "20230101" "NTV" "English" Model.openai
        30 20 [0]).oracleEndpoint = some OPENAI_DEFAULT_BASE := by
  have h := claim6_provider_branch ckProbe [] initGlobals "20230101" "NTV"
    "English" 30 20 [0] () (by decide) rfl rfl rfl
  exact ⟨h.1, h.2.1, h.2.2.2.2 rfl⟩

/-- **C7 is false on the code.** The query parameter `?chunk=500&count=77`
seeds `st.session_state` (lines 103–106) with no range check, the keyed
sliders hand those values back to the script, and the core is invoked with a
chunk size of 500 seconds and a cluster count of 77 — outside the claimed
`[3, 120]` and `[1, 50]` ranges. -/
theorem claim7_counterexample :
    chunkSlider (some 500) = 500 ∧ ¬ ((500 : Int) ≤ 120) ∧
    countSlider (some 77) = 77 ∧ ¬ ((77 : Int) ≤ 50) ∧
    (mainRun ckProbe [] initGlobals "20230101" "NTV" "English" Model.openai
        (chunkSlider (some 500)) (countSlider (some 77)) [0]).outcome =
      .rendered [ckProbeRecord 500] :=
  ⟨rfl, by decide, rfl, by decide, rfl⟩

/-- **C7 (amended).** The sliders' defaults do reach the core: with no
session or query-parameter state the core receives chunk size 30 and
cluster count 20.  But a session value (seeded from a query parameter) is
passed through to the core unvalidated, so the declared bounds `[3, 120]`
and `[1, 50]` are guaranteed only for runs whose session values, if any,
already lie within them. -/
theorem claim7_slider_passthrough (sessCk sessCt : Option Int) :
    chunkSlider none = 30 ∧ countSlider none = 20 ∧
    (∀ v, chunkSlider (some v) = v) ∧
    (∀ v, countSlider (some v) = v) ∧
    ((∀ v, sessCk = some v → 3 ≤ v ∧ v ≤ 120) →
      3 ≤ chunkSlider sessCk ∧ chunkSlider sessCk ≤ 120) ∧
    ((∀ v, sessCt = some v → 1 ≤ v ∧ v ≤ 50) →
      1 ≤ countSlider sessCt ∧ countSlider sessCt ≤ 50) := by
  refine ⟨rfl, rfl, fun v => rfl, fun v => rfl, ?_, ?_⟩
  · intro hin
    cases sessCk with
    | none => exact ⟨by decide, by decide⟩
    | some v => exact hin v rfl
  · intro hin
    cases sessCt with
    | none => exact ⟨by decide, by decide⟩
    | some v => exact hin v rfl

/-- Witness for the amended C7: a query-parameter chunk value 12 (in range)
and an untouched cluster-count slider. -/
theorem claim7_witness :
    chunkSlider none = 30 ∧ countSlider none = 20 ∧
    (3 ≤ chunkSlider (some 12) ∧ chunkSlider (some 12) ≤ 120) ∧
    (1 ≤ countSlider none ∧ countSlider none ≤ 50) := by
  have h := claim7_slider_passthrough (some 12) none
  exact ⟨h.1, h.2.1,
    h.2.2.2.2.1 (fun v hv => by injection hv with hv; omega),
    h.2.2.2.2.2 (fun v hv => Option.noConfusion hv)⟩

/-- **C8.** Selecting the Vicuna provider mutates process-global state that
is never restored: after any run with the Vicuna model (past the channel
guard), the global `api_base` is the Vicuna endpoint, and a subsequent run
in the same process with the OpenAI model selected leaves it there, so that
run's oracle calls are still directed at the Vicuna endpoint. -/
theorem claim8_vicuna_global_leak {Inv Doc Inv' Doc' : Type}
    (env : Collab Inv Doc) (env' : Collab Inv' Doc') (cache cache' : Cache)
    (g : OpenAIGlobals) (dt ch lg dt' ch' lg' : String) (ck ct ck' ct' : Int)
    (sched sched' : List Nat) (inv' : Inv')
    (hch : ch ≠ "") (hch' : ch' ≠ "")
    (hinv' : env'.load_inventory ch' dt' lg' = .ok inv')
    (hmiss' : cache'.lookup (cacheFileName dt' ch' Model.openai lg') = none) :
    (mainRun env cache g dt ch lg Model.vicuna ck ct
        sched).globalsAfter.api_base = VICUNA ∧
    (mainRun env' cache'
        (mainRun env cache g dt ch lg Model.vicuna ck ct sched).globalsAfter
        dt' ch' lg' Model.openai ck' ct' sched').globalsAfter.api_base =
      VICUNA ∧
    (mainRun env' cache'
        (mainRun env cache g dt ch lg Model.vicuna ck ct sched).globalsAfter
        dt' ch' lg' Model.openai ck' ct' sched').oracleEndpoint =
      some VICUNA := by
  have h1 : (mainRun env cache g dt ch lg Model.vicuna ck ct
      sched).globalsAfter = { api_key := "EMPTY", api_base := VICUNA } := by
    rw [mainRun_globalsAfter env cache g dt ch lg Model.vicuna ck ct sched hch]
    rfl
  rw [h1, mainRun_miss env' cache' _ dt' ch' lg' Model.openai ck' ct' sched'
    inv' hch' hinv' hmiss']
  exact ⟨rfl, rfl, rfl⟩

/-- Witness for C8 at the concrete pair of runs `vicunaRun` and
`openaiAfterVicunaRun`. -/
theorem claim8_witness :
    vicunaRun.globalsAfter.api_base = VICUNA ∧
    openaiAfterVicunaRun.globalsAfter.api_base = VICUNA ∧
    openaiAfterVicunaRun.oracleEndpoint = some VICUNA := by
  have h := claim8_vicuna_global_leak ckProbe ckProbe [] [] initGlobals
    "20230101" "NTV" "English" "20230102" "NTV" "English" 30 20 30 20
    [0] [0] () (by decide) (by decide) rfl rfl
  exact ⟨h.1, h.2.1, h.2.2⟩

/-- **C9 is false on the code as universally stated.** A record missing only
`transcript` whose `id` does not match `IDDTRE` raises `AttributeError`
(from `id_to_time`, reached before the `transcript` access), not a
`KeyError` — though the exception still escapes `draw_summaries`. -/
theorem claim9_counterexample :
    draw_summaries [junkIdRecord] = .error PyError.attributeError ∧
    PyError.attributeError ≠ PyError.keyError "transcript" :=
  ⟨rfl, by decide⟩

/-- **C9 (amended).** `draw_summaries` is tolerant only of the optional
fields: a record with `id`, `start`, `end` and `transcript` present (and a
parsable id) renders, with absent `title`, `description` or `category`
replaced by `"[EMPTY]"`; a record missing `id`, `start` or `end` raises a
`KeyError` naming the first absent key, and one missing only `transcript`
raises `KeyError "transcript"` provided its id parses (a malformed id
raises `AttributeError`/`ValueError` first).  Every such error escapes the
function because its handler catches only `json.JSONDecodeError`. -/
theorem claim9_draw_key_tolerance (r : SummaryRecord) :
    (∀ i s e tr t, r.id = some i → r.start = some s → r.end_ = some e →
      r.transcript = some tr → id_to_time i s = .ok t →
      draw_summaries [r] = .ok [some
        { subheader := r.title.getD "[EMPTY]"
          iframeId := i, iframeStart := s, iframeEnd := e
          description := r.description.getD "[EMPTY]"
          expanderTime := t
          expanderCategory := pyUpper (r.category.getD "[EMPTY]")
          caption := tr }]) ∧
    (r.id = none → draw_summaries [r] = .error (.keyError "id")) ∧
    (∀ i, r.id = some i → r.start = none →
      draw_summaries [r] = .error (.keyError "start")) ∧
    (∀ i s, r.id = some i → r.start = some s → r.end_ = none →
      draw_summaries [r] = .error (.keyError "end")) ∧
    (∀ i s e t, r.id = some i → r.start = some s → r.end_ = some e →
      id_to_time i s = .ok t → r.transcript = none →
      draw_summaries [r] = .error (.keyError "transcript")) := by
  refine ⟨?_, ?_, ?_, ?_, ?_⟩
  · intro i s e tr t h1 h2 h3 h4 h5
    simp [draw_summaries, drawOne, Except.map, h1, h2, h3, h4, h5]
  · intro h1
    simp [draw_summaries, drawOne, Except.map, h1]
  · intro i h1 h2
    simp [draw_summaries, drawOne, Except.map, h1, h2]
  · intro i s h1 h2 h3
    simp [draw_summaries, drawOne, Except.map, h1, h2, h3]
  · intro i s e t h1 h2 h3 h4 h5
    simp [draw_summaries, drawOne, Except.map, h1, h2, h3, h4, h5]

/-- Witness for the amended C9: a record with the optional fields partly
absent renders with the `[EMPTY]` placeholder and the category
upper-cased. -/
theorem claim9_witness :
    draw_summaries [{ id := some "X_20220325_123456", start := some 10,
                      end_ := some 20, title := none,
                      description := some "desc", category := some "war",
                      transcript := some "words" }] =
      .ok [some { subheader := "[EMPTY]", iframeId := "X_20220325_123456",
                  iframeStart := 10, iframeEnd := 20, description := "desc",
                  expanderTime := 63783808506, expanderCategory := "WAR",
                  caption := "words" }] := by
  have h := (claim9_draw_key_tolerance
    { id := some "X_20220325_123456", start := some 10, end_ := some 20,
      title := none, description := some "desc", category := some "war",
      transcript := some "words" }).1
    "X_20220325_123456" 10 20 "words" 63783808506 rfl rfl rfl rfl rfl
  exact h

/-- **C10 is false on the code as stated.** The id `"A_99999999_999999"`
matches `IDDTRE` (underscore, eight digits, underscore, six digits, with a
character before), yet `id_to_time` does not return a timestamp: `strptime`
raises `ValueError` on the out-of-range fields. -/
theorem claim10_counterexample :
    iddtreCapture "A_99999999_999999" = some "99999999_999999" ∧
    id_to_time "A_99999999_999999" 0 = .error PyError.valueError :=
  ⟨rfl, rfl⟩

/-- **C10 (amended).** `id_to_time` is a partial function on program ids:
when `IDDTRE` fails to match, `.groups()` on `None` raises
`AttributeError`; when it matches, the capture has the fifteen-character
`\d{8}_\d{6}` shape and the result is the captured timestamp parsed as
`%Y%m%d_%H%M%S` plus the given start offset in seconds — unless the digits
do not form a valid datetime, in which case `strptime` raises
`ValueError`. -/
theorem claim10_id_to_time_cases (id : String) (start : Int) :
    (iddtreCapture id = none → id_to_time id start = .error .attributeError) ∧
    (∀ cap, iddtreCapture id = some cap →
      capShape cap.data = true ∧
      (strptimeYmdHMS cap = none → id_to_time id start = .error .valueError) ∧
      (∀ secs, strptimeYmdHMS cap = some secs →
        id_to_time id start = .ok ((secs : Int) + start))) := by
  constructor
  · intro h
    simp [id_to_time, h]
  · intro cap hcap
    refine ⟨?_, fun h => by simp [id_to_time, hcap, h],
      fun secs h => by simp [id_to_time, hcap, h]⟩
    unfold iddtreCapture at hcap
    cases hL : iddtreCaptureL id.data with
    | none => rw [hL] at hcap; simp at hcap
    | some l =>
      rw [hL] at hcap
      simp only [Option.map_some', Option.some.injEq] at hcap
      unfold iddtreCaptureL at hL
      cases hlast : (List.filter (fun i => matchesAt id.data i)
          (List.range id.data.length)).getLast? with
      | none => rw [hlast] at hL; simp at hL
      | some i =>
        rw [hlast] at hL
        simp only [Option.some.injEq] at hL
        have hmem : i ∈ List.filter (fun i => matchesAt id.data i)
            (List.range id.data.length) := List.mem_of_mem_getLast? hlast
        have hm : matchesAt id.data i = true := (List.mem_filter.mp hmem).2
        have hshape : capShape (capAt id.data i) = true := by
          simp only [matchesAt, Bool.and_eq_true] at hm
          exact hm.2
        have hdata : cap.data = capAt id.data i := by
          rw [← hcap]
          show (String.mk l).data = capAt id.data i
          rw [hL]
        rw [hdata]
        exact hshape

/-- Witness for the amended C10 at a well-formed id and start offset 10. -/
theorem claim10_witness :
    capShape (String.data "20220325_123456") = true ∧
    id_to_time "X_20220325_123456" 10 = .ok 63783808506 := by
  have h := (claim10_id_to_time_cases "X_20220325_123456" 10).2
    "20220325_123456" (by decide)
  exact ⟨h.1, h.2.2 63783808496 (by decide)⟩

end Newsum
